import Mathlib

/-
Verification development for the spatial-diagram SVG layout engine of the
slides repository.  The layout functions are embedded shallowly: JavaScript
numbers become rationals, the label-measurement capability and the math
renderer become function parameters, and each string fragment appended to
the output becomes one structured element in an ordered list.
-/

namespace SpatialSvg

/-- Rendered pixel dimensions of a label, as returned by the measurement capability. -/
structure LabelDims where
  width : ℚ
  height : ℚ
deriving DecidableEq, Repr

/-- The label measurement capability: (label, fontSize, asLaTeX) to pixel dimensions. -/
abbrev Measure := String → ℚ → Bool → LabelDims

/-- The math renderer capability (katex.renderToString with throwOnError false). -/
abbrev Render := String → String

/-- Direction of an arrow or caption indicator. -/
inductive Dir where
  | up
  | down
  | left
  | right
deriving DecidableEq, Repr

/-- A labeled point placed below (or beside) the axis. -/
structure Person where
  position : ℚ
  label : String
  asLaTeX : Option Bool := none
deriving DecidableEq, Repr

/-- A labeled point placed above (or beside) the axis. -/
structure Policy where
  position : ℚ
  label : String
  asLaTeX : Option Bool := none
deriving DecidableEq, Repr

/-- A tic mark on the axis with an optional caption. -/
structure Tic where
  pos : ℚ
  label : Option String := none
deriving DecidableEq, Repr

/-- Scale decoration: a list of tic marks with a shared asLaTeX flag. -/
structure Scale where
  asLaTeX : Option Bool := none
  tics : List Tic
deriving DecidableEq, Repr

/-- The optional axis caption. -/
structure SpaceLabel where
  label : String
  asLaTeX : Option Bool := none
deriving DecidableEq, Repr

/-- Orientation of the one-dimensional diagram. -/
inductive Orientation where
  | horizontal
  | vertical
deriving DecidableEq, Repr

/-- Configuration record of createSpatialDiagram (the 1D variant). -/
structure SpatialDiagramProps where
  width : ℚ
  height : ℚ
  id : String
  marginX : ℚ
  marginY : ℚ
  fontSize : ℚ := 16
  persons : List Person := []
  policies : List Policy := []
  spaceLabel : Option SpaceLabel := none
  LabelDirection : Option Dir := none
  scale : Option Scale := none
  orientation : Orientation := .horizontal
deriving DecidableEq, Repr

/-- One emitted SVG fragment.  Every string concatenation step of the source
appends exactly one such element; the final markup string is their
serialization in order inside the svg header and footer. -/
inductive SvgElem where
  | line (x1 y1 x2 y2 strokeWidth : ℚ) (dashed : Bool) (markerEnd : Option String)
  | triangle (x1 y1 x2 y2 x3 y3 : ℚ)
  | foreignObject (x y width height : ℚ) (idAttr : Option String)
      (fontSize : ℚ) (textAlign : String) (html : String)
  | circle (cx cy r : ℚ)
  | markerDefs (markerId : String)
deriving DecidableEq, Repr

/-- The emitted SVG document: header attributes plus the ordered body fragments. -/
structure SvgDoc where
  id : String
  width : ℚ
  height : ℚ
  body : List SvgElem
deriving DecidableEq, Repr

/-- Embeds createArrow: a filled triangle path pointing up, down, left, or right. -/
def createArrow (x y : ℚ) (direction : Dir) : SvgElem :=
  let size : ℚ := 6
  match direction with
  | .up => .triangle x y (x - size) (y + size) (x + size) (y + size)
  | .down => .triangle x y (x - size) (y - size) (x + size) (y - size)
  | .left => .triangle x y (x + size) (y - size) (x + size) (y + size)
  | .right => .triangle x y (x - size) (y - size) (x - size) (y + size)

/-- The absolute axis coordinate of a proportional position, as computed
inline in every loop of the source: start plus position times length. -/
def axisCoord (marginStart axisLength position : ℚ) : ℚ :=
  marginStart + position * axisLength

/-- Loop body for one tic of the horizontal branch of createSpatialDiagram. -/
def ticElemsH (meas : Measure) (rend : Render)
    (fontSize lineStartX lineLength lineY : ℚ) (useLaTeX : Bool) (tic : Tic) :
    List SvgElem :=
  let x := axisCoord lineStartX lineLength tic.pos
  let ticLength : ℚ := 4
  let mark := SvgElem.line x lineY x (lineY + ticLength) 2 false none
  match tic.label with
  | none => [mark]
  | some lab =>
    if lab = "" then [mark]
    else
      let labelDims := meas lab fontSize useLaTeX
      let labelX := x - labelDims.width / 2
      let labelY := lineY + ticLength + 2
      let labelHtml := if useLaTeX then rend lab else lab
      [mark, .foreignObject labelX labelY labelDims.width labelDims.height none
        fontSize "center" labelHtml]

/-- Loop body for one policy of the horizontal branch of createSpatialDiagram. -/
def policyElemsH (meas : Measure) (rend : Render)
    (fontSize lineStartX lineLength lineY marginY : ℚ) (policy : Policy) :
    List SvgElem :=
  let x := axisCoord lineStartX lineLength policy.position
  let useLaTeX := policy.asLaTeX.getD false
  let labelDims := meas policy.label fontSize useLaTeX
  let labelX := x - labelDims.width / 2
  let arrowTopY := marginY + labelDims.height + 5
  let arrowHeight := lineY - arrowTopY
  let arrows :=
    if arrowHeight > 0 then
      [SvgElem.line x arrowTopY x lineY 1 false none, createArrow x lineY .down]
    else []
  let labelHtml := if useLaTeX then rend policy.label else policy.label
  let labelY := marginY
  arrows ++ [.foreignObject labelX labelY labelDims.width labelDims.height
    (some policy.label) fontSize "center" labelHtml]

/-- Loop body for one person of the horizontal branch of createSpatialDiagram.
The accumulator carries the emitted elements so far and the running
maxPersonLabelBottom value. -/
def personStepH (meas : Measure) (rend : Render)
    (fontSize lineStartX lineLength lineY height marginY : ℚ)
    (acc : List SvgElem × ℚ) (person : Person) : List SvgElem × ℚ :=
  let x := axisCoord lineStartX lineLength person.position
  let useLaTeX := person.asLaTeX.getD false
  let labelDims := meas person.label fontSize useLaTeX
  let labelY := height - marginY - labelDims.height
  let arrowBottomY := labelY - 5
  let arrowHeight := arrowBottomY - lineY
  let arrows :=
    if arrowHeight > 0 then
      [SvgElem.line x lineY x arrowBottomY 1 false none, createArrow x lineY .up]
    else []
  let labelHtml := if useLaTeX then rend person.label else person.label
  let labelX := x - labelDims.width / 2
  let labelElem := SvgElem.foreignObject labelX labelY labelDims.width
    labelDims.height (some person.label) fontSize "center" labelHtml
  (acc.1 ++ arrows ++ [labelElem], max acc.2 (labelY + labelDims.height))

/-- Space label block of the horizontal branch of createSpatialDiagram. -/
def spaceLabelElemsH (meas : Measure) (rend : Render)
    (fontSize lineStartX lineLength maxPersonLabelBottom : ℚ) (id : String)
    (sl : SpaceLabel) (dir : Option Dir) : List SvgElem :=
  let useLaTeX := sl.asLaTeX.getD false
  let labelDims := meas sl.label fontSize useLaTeX
  let lineCenterX := lineStartX + lineLength / 2
  let labelX := lineCenterX - labelDims.width / 2
  let labelY := maxPersonLabelBottom + 10
  let labelHtml := if useLaTeX then rend sl.label else sl.label
  let labelElem := SvgElem.foreignObject labelX labelY labelDims.width
    labelDims.height (some sl.label) fontSize "center" labelHtml
  let arrowElems :=
    match dir with
    | none => []
    | some d =>
      let arrowY := labelY + labelDims.height + 10
      let arrowLength : ℚ := 40
      if d = .right then
        [SvgElem.line (lineCenterX - arrowLength / 2) arrowY
          (lineCenterX + arrowLength / 2) arrowY 1 false (some ("arrowhead-" ++ id))]
      else
        [SvgElem.line (lineCenterX + arrowLength / 2) arrowY
          (lineCenterX - arrowLength / 2) arrowY 1 false (some ("arrowhead-" ++ id))]
  [labelElem] ++ arrowElems

/-- Body of the horizontal branch of createSpatialDiagram, in emission order:
axis line, scale, policies, persons, space label, marker defs. -/
def horizontalElems (meas : Measure) (rend : Render)
    (props : SpatialDiagramProps) : List SvgElem :=
  let lineY := props.height / 2
  let lineStartX := props.marginX
  let lineEndX := props.width - props.marginX
  let lineLength := lineEndX - lineStartX
  let axis := [SvgElem.line lineStartX lineY lineEndX lineY 2 false none]
  let scaleElems :=
    match props.scale with
    | none => []
    | some sc => sc.tics.flatMap
        (ticElemsH meas rend props.fontSize lineStartX lineLength lineY
          (sc.asLaTeX.getD false))
  let policyElems := props.policies.flatMap
    (policyElemsH meas rend props.fontSize lineStartX lineLength lineY props.marginY)
  let personAcc := props.persons.foldl
    (personStepH meas rend props.fontSize lineStartX lineLength lineY
      props.height props.marginY) ([], lineY)
  let slElems :=
    match props.spaceLabel with
    | none => []
    | some sl => spaceLabelElemsH meas rend props.fontSize lineStartX lineLength
        personAcc.2 props.id sl props.LabelDirection
  let defsElems :=
    if props.spaceLabel.isSome && props.LabelDirection.isSome then
      [SvgElem.markerDefs ("arrowhead-" ++ props.id)]
    else []
  axis ++ scaleElems ++ policyElems ++ personAcc.1 ++ slElems ++ defsElems

/-- Loop body for one tic of the vertical branch of createSpatialDiagram. -/
def ticElemsV (meas : Measure) (rend : Render)
    (fontSize lineX lineStartY lineLength : ℚ) (useLaTeX : Bool) (tic : Tic) :
    List SvgElem :=
  let y := axisCoord lineStartY lineLength tic.pos
  let ticLength : ℚ := 4
  let mark := SvgElem.line lineX y (lineX + ticLength) y 2 false none
  match tic.label with
  | none => [mark]
  | some lab =>
    if lab = "" then [mark]
    else
      let labelDims := meas lab fontSize useLaTeX
      let labelX := lineX + ticLength + 2
      let labelY := y - labelDims.height / 2
      let labelHtml := if useLaTeX then rend lab else lab
      [mark, .foreignObject labelX labelY labelDims.width labelDims.height none
        fontSize "left" labelHtml]

/-- Loop body for one policy of the vertical branch of createSpatialDiagram. -/
def policyElemsV (meas : Measure) (rend : Render)
    (fontSize lineX lineStartY lineLength width marginX : ℚ) (policy : Policy) :
    List SvgElem :=
  let y := axisCoord lineStartY lineLength policy.position
  let useLaTeX := policy.asLaTeX.getD false
  let labelDims := meas policy.label fontSize useLaTeX
  let arrowLeftX := lineX
  let arrowRightX := width - marginX - labelDims.width - 5
  let arrowLength := arrowRightX - arrowLeftX
  let arrows :=
    if arrowLength > 0 then
      [SvgElem.line arrowLeftX y arrowRightX y 1 false none, createArrow lineX y .left]
    else []
  let labelHtml := if useLaTeX then rend policy.label else policy.label
  let labelX := width - marginX - labelDims.width
  let labelY := y - labelDims.height / 2
  arrows ++ [.foreignObject labelX labelY labelDims.width labelDims.height
    (some policy.label) fontSize "left" labelHtml]

/-- Loop body for one person of the vertical branch of createSpatialDiagram.
The accumulator carries the emitted elements and the running
maxPersonLabelRight value. -/
def personStepV (meas : Measure) (rend : Render)
    (fontSize lineX lineStartY lineLength marginX : ℚ)
    (acc : List SvgElem × ℚ) (person : Person) : List SvgElem × ℚ :=
  let y := axisCoord lineStartY lineLength person.position
  let useLaTeX := person.asLaTeX.getD false
  let labelDims := meas person.label fontSize useLaTeX
  let labelX := marginX
  let arrowRightX := lineX
  let arrowLeftX := labelX + labelDims.width + 5
  let arrowLength := arrowRightX - arrowLeftX
  let arrows :=
    if arrowLength > 0 then
      [SvgElem.line arrowLeftX y arrowRightX y 1 false none, createArrow lineX y .right]
    else []
  let labelHtml := if useLaTeX then rend person.label else person.label
  let labelY := y - labelDims.height / 2
  let labelElem := SvgElem.foreignObject labelX labelY labelDims.width
    labelDims.height (some person.label) fontSize "right" labelHtml
  (acc.1 ++ arrows ++ [labelElem], max acc.2 (labelX + labelDims.width))

/-- Space label block of the vertical branch of createSpatialDiagram.  Note
that only the up and down directions emit a caption arrow line here; left and
right emit nothing. -/
def spaceLabelElemsV (meas : Measure) (rend : Render)
    (fontSize lineStartY lineLength maxPersonLabelRight : ℚ) (id : String)
    (sl : SpaceLabel) (dir : Option Dir) : List SvgElem :=
  let useLaTeX := sl.asLaTeX.getD false
  let labelDims := meas sl.label fontSize useLaTeX
  let lineCenterY := lineStartY + lineLength / 2
  let labelX := maxPersonLabelRight + 10
  let labelY := lineCenterY - labelDims.height / 2
  let labelHtml := if useLaTeX then rend sl.label else sl.label
  let labelElem := SvgElem.foreignObject labelX labelY labelDims.width
    labelDims.height (some sl.label) fontSize "left" labelHtml
  let arrowElems :=
    match dir with
    | none => []
    | some d =>
      let arrowX := labelX + labelDims.width + 10
      let arrowLength : ℚ := 40
      if d = .down then
        [SvgElem.line arrowX (lineCenterY - arrowLength / 2) arrowX
          (lineCenterY + arrowLength / 2) 1 false (some ("arrowhead-" ++ id))]
      else if d = .up then
        [SvgElem.line arrowX (lineCenterY + arrowLength / 2) arrowX
          (lineCenterY - arrowLength / 2) 1 false (some ("arrowhead-" ++ id))]
      else []
  [labelElem] ++ arrowElems

/-- Body of the vertical branch of createSpatialDiagram, in emission order. -/
def verticalElems (meas : Measure) (rend : Render)
    (props : SpatialDiagramProps) : List SvgElem :=
  let lineX := props.width / 2
  let lineStartY := props.marginY
  let lineEndY := props.height - props.marginY
  let lineLength := lineEndY - lineStartY
  let axis := [SvgElem.line lineX lineStartY lineX lineEndY 2 false none]
  let scaleElems :=
    match props.scale with
    | none => []
    | some sc => sc.tics.flatMap
        (ticElemsV meas rend props.fontSize lineX lineStartY lineLength
          (sc.asLaTeX.getD false))
  let policyElems := props.policies.flatMap
    (policyElemsV meas rend props.fontSize lineX lineStartY lineLength
      props.width props.marginX)
  let personAcc := props.persons.foldl
    (personStepV meas rend props.fontSize lineX lineStartY lineLength
      props.marginX) ([], lineX)
  let slElems :=
    match props.spaceLabel with
    | none => []
    | some sl => spaceLabelElemsV meas rend props.fontSize lineStartY lineLength
        personAcc.2 props.id sl props.LabelDirection
  let defsElems :=
    if props.spaceLabel.isSome && props.LabelDirection.isSome then
      [SvgElem.markerDefs ("arrowhead-" ++ props.id)]
    else []
  axis ++ scaleElems ++ policyElems ++ personAcc.1 ++ slElems ++ defsElems

/-- Embeds createSpatialDiagram, the 1D layout function: dispatches on the
orientation and wraps the body in the svg header attributes. -/
def createSpatialDiagram (meas : Measure) (rend : Render)
    (props : SpatialDiagramProps) : SvgDoc :=
  let body :=
    match props.orientation with
    | .vertical => verticalElems meas rend props
    | .horizontal => horizontalElems meas rend props
  { id := props.id, width := props.width, height := props.height, body := body }

/-- Configuration record of the older createSpatialDiagram variant, which has
no scale and no orientation option. -/
structure SpatialDiagramPropsV1 where
  width : ℚ
  height : ℚ
  id : String
  marginX : ℚ
  marginY : ℚ
  fontSize : ℚ := 16
  persons : List Person := []
  policies : List Policy := []
  spaceLabel : Option SpaceLabel := none
  LabelDirection : Option Dir := none
deriving DecidableEq, Repr

/-- Embeds the older createSpatialDiagram variant: identical to the
horizontal branch of the newer one, minus the scale decoration.  Its loop
bodies are textually the same as the horizontal ones, so the same helper
definitions are reused. -/
def createSpatialDiagramV1 (meas : Measure) (rend : Render)
    (props : SpatialDiagramPropsV1) : SvgDoc :=
  let lineY := props.height / 2
  let lineStartX := props.marginX
  let lineEndX := props.width - props.marginX
  let lineLength := lineEndX - lineStartX
  let axis := [SvgElem.line lineStartX lineY lineEndX lineY 2 false none]
  let policyElems := props.policies.flatMap
    (policyElemsH meas rend props.fontSize lineStartX lineLength lineY props.marginY)
  let personAcc := props.persons.foldl
    (personStepH meas rend props.fontSize lineStartX lineLength lineY
      props.height props.marginY) ([], lineY)
  let slElems :=
    match props.spaceLabel with
    | none => []
    | some sl => spaceLabelElemsH meas rend props.fontSize lineStartX lineLength
        personAcc.2 props.id sl props.LabelDirection
  let defsElems :=
    if props.spaceLabel.isSome && props.LabelDirection.isSome then
      [SvgElem.markerDefs ("arrowhead-" ++ props.id)]
    else []
  { id := props.id, width := props.width, height := props.height,
    body := axis ++ policyElems ++ personAcc.1 ++ slElems ++ defsElems }

/-- A labeled point of the 2D variant, with proportional coordinates on both
axes and an optional guide-line flag. -/
structure Person2D where
  x : ℚ
  y : ℚ
  label : String
  asLaTeX : Option Bool := none
  guides : Option Bool := none
deriving DecidableEq, Repr

/-- Configuration record of createSpatialDiagram2D. -/
structure SpatialDiagram2DProps where
  width : ℚ
  height : ℚ
  id : String
  marginX : ℚ
  marginY : ℚ
  fontSize : ℚ := 16
  persons : List Person2D := []
  horizontalPolicies : List Policy := []
  verticalPolicies : List Policy := []
  horizontalScale : Option Scale := none
  verticalScale : Option Scale := none
  horizontalLabel : Option SpaceLabel := none
  verticalLabel : Option SpaceLabel := none
deriving DecidableEq, Repr

/-- Loop body for one tic of the horizontal scale of createSpatialDiagram2D. -/
def ticElems2DH (meas : Measure) (rend : Render)
    (fontSize leftX horizontalAxisLength centerY : ℚ) (useLaTeX : Bool)
    (tic : Tic) : List SvgElem :=
  let x := axisCoord leftX horizontalAxisLength tic.pos
  let ticLength : ℚ := 4
  let mark := SvgElem.line x centerY x (centerY + ticLength) 2 false none
  match tic.label with
  | none => [mark]
  | some lab =>
    if lab = "" then [mark]
    else
      let labelDims := meas lab fontSize useLaTeX
      let labelX := x - labelDims.width / 2
      let labelY := centerY + ticLength + 2
      let labelHtml := if useLaTeX then rend lab else lab
      [mark, .foreignObject labelX labelY labelDims.width labelDims.height none
        fontSize "center" labelHtml]

/-- Loop body for one tic of the vertical scale of createSpatialDiagram2D. -/
def ticElems2DV (meas : Measure) (rend : Render)
    (fontSize topY verticalAxisLength centerX : ℚ) (useLaTeX : Bool)
    (tic : Tic) : List SvgElem :=
  let y := axisCoord topY verticalAxisLength tic.pos
  let ticLength : ℚ := 4
  let mark := SvgElem.line centerX y (centerX + ticLength) y 2 false none
  match tic.label with
  | none => [mark]
  | some lab =>
    if lab = "" then [mark]
    else
      let labelDims := meas lab fontSize useLaTeX
      let labelX := centerX + ticLength + 2
      let labelY := y - labelDims.height / 2
      let labelHtml := if useLaTeX then rend lab else lab
      [mark, .foreignObject labelX labelY labelDims.width labelDims.height none
        fontSize "left" labelHtml]

/-- Loop body for one horizontal policy of createSpatialDiagram2D.  The arrow
has a fixed length of 10 and is emitted unconditionally; the label is placed
above the arrow top with a 2 pixel clearance. -/
def hPolicyElems2D (meas : Measure) (rend : Render)
    (fontSize leftX horizontalAxisLength centerY : ℚ) (policy : Policy) :
    List SvgElem :=
  let x := axisCoord leftX horizontalAxisLength policy.position
  let useLaTeX := policy.asLaTeX.getD false
  let labelDims := meas policy.label fontSize useLaTeX
  let arrowLength : ℚ := 10
  let arrowTopY := centerY - arrowLength
  let arrowSize : ℚ := 3
  let labelX := x - labelDims.width / 2
  let labelY := arrowTopY - labelDims.height - 2
  let labelHtml := if useLaTeX then rend policy.label else policy.label
  [SvgElem.line x arrowTopY x centerY 1 false none,
   .triangle x centerY (x - arrowSize) (centerY - arrowSize)
     (x + arrowSize) (centerY - arrowSize),
   .foreignObject labelX labelY labelDims.width labelDims.height
     (some policy.label) fontSize "center" labelHtml]

/-- Loop body for one vertical policy of createSpatialDiagram2D. -/
def vPolicyElems2D (meas : Measure) (rend : Render)
    (fontSize topY verticalAxisLength centerX : ℚ) (policy : Policy) :
    List SvgElem :=
  let y := axisCoord topY verticalAxisLength policy.position
  let useLaTeX := policy.asLaTeX.getD false
  let labelDims := meas policy.label fontSize useLaTeX
  let arrowLength : ℚ := 10
  let arrowLeftX := centerX - arrowLength
  let arrowSize : ℚ := 3
  let labelX := arrowLeftX - labelDims.width - 2
  let labelY := y - labelDims.height / 2
  let labelHtml := if useLaTeX then rend policy.label else policy.label
  [SvgElem.line arrowLeftX y centerX y 1 false none,
   .triangle centerX y (centerX - arrowSize) (y - arrowSize)
     (centerX - arrowSize) (y + arrowSize),
   .foreignObject labelX labelY labelDims.width labelDims.height
     (some policy.label) fontSize "right" labelHtml]

/-- Loop body for one person of createSpatialDiagram2D: optional guide lines,
the dot, and the label at the top right of the dot. -/
def personElems2D (meas : Measure) (rend : Render)
    (fontSize leftX horizontalAxisLength topY verticalAxisLength
      centerX centerY : ℚ) (person : Person2D) : List SvgElem :=
  let x := axisCoord leftX horizontalAxisLength person.x
  let y := axisCoord topY verticalAxisLength person.y
  let dotRadius : ℚ := 8
  let guideElems :=
    if person.guides.getD false then
      [SvgElem.line x y x centerY 1 true none,
       SvgElem.line x y centerX y 1 true none]
    else []
  let useLaTeX := person.asLaTeX.getD false
  let labelDims := meas person.label fontSize useLaTeX
  let labelX := x + dotRadius + 0
  let labelY := y - dotRadius - 0 - labelDims.height
  let labelHtml := if useLaTeX then rend person.label else person.label
  guideElems ++ [SvgElem.circle x y dotRadius,
    .foreignObject labelX labelY labelDims.width labelDims.height
      (some person.label) fontSize "left" labelHtml]

/-- Embeds createSpatialDiagram2D: two axes crossing at the midpoint of the
drawing area, scales, policies with fixed-length arrows, person dots, and
optional axis captions in the margins. -/
def createSpatialDiagram2D (meas : Measure) (rend : Render)
    (props : SpatialDiagram2DProps) : SvgDoc :=
  let leftX := props.marginX
  let rightX := props.width - props.marginX
  let topY := props.marginY
  let bottomY := props.height - props.marginY
  let centerX := (leftX + rightX) / 2
  let centerY := (topY + bottomY) / 2
  let horizontalAxisLength := rightX - leftX
  let verticalAxisLength := bottomY - topY
  let axes := [SvgElem.line leftX centerY rightX centerY 2 false none,
               SvgElem.line centerX topY centerX bottomY 2 false none]
  let hScaleElems :=
    match props.horizontalScale with
    | none => []
    | some sc => sc.tics.flatMap
        (ticElems2DH meas rend props.fontSize leftX horizontalAxisLength centerY
          (sc.asLaTeX.getD false))
  let vScaleElems :=
    match props.verticalScale with
    | none => []
    | some sc => sc.tics.flatMap
        (ticElems2DV meas rend props.fontSize topY verticalAxisLength centerX
          (sc.asLaTeX.getD false))
  let hPolicyElems := props.horizontalPolicies.flatMap
    (hPolicyElems2D meas rend props.fontSize leftX horizontalAxisLength centerY)
  let vPolicyElems := props.verticalPolicies.flatMap
    (vPolicyElems2D meas rend props.fontSize topY verticalAxisLength centerX)
  let personElems := props.persons.flatMap
    (personElems2D meas rend props.fontSize leftX horizontalAxisLength topY
      verticalAxisLength centerX centerY)
  let hLabelElems :=
    match props.horizontalLabel with
    | none => []
    | some hl =>
      let useLaTeX := hl.asLaTeX.getD false
      let labelHtml := if useLaTeX then rend hl.label else hl.label
      let labelWidth := props.marginX - 4
      let labelX := rightX + 2
      let labelHeight := verticalAxisLength
      let labelY := topY
      [SvgElem.foreignObject labelX labelY labelWidth labelHeight none
        props.fontSize "center" labelHtml]
  let vLabelElems :=
    match props.verticalLabel with
    | none => []
    | some vl =>
      let useLaTeX := vl.asLaTeX.getD false
      let labelHtml := if useLaTeX then rend vl.label else vl.label
      let labelHeight := props.marginY - 4
      let labelWidth := horizontalAxisLength
      let labelX := leftX
      let labelY : ℚ := 2
      [SvgElem.foreignObject labelX labelY labelWidth labelHeight none
        props.fontSize "center" labelHtml]
  { id := props.id, width := props.width, height := props.height,
    body := axes ++ hScaleElems ++ vScaleElems ++ hPolicyElems ++ vPolicyElems
      ++ personElems ++ hLabelElems ++ vLabelElems }

/-- State of the host document during label measurement: the child elements
currently attached to the document body, identified by numbers. -/
structure DocState where
  body : List Nat
deriving DecidableEq, Repr

/-- Embeds the element lifecycle inside measureLabel.  The source appends the
transient div to the document body, calls getBoundingClientRect on it, and
then removes it, with no try or finally protection.  The rectangle call is
modelled as a fallible capability: when it throws, the exception propagates
immediately and the removal step is never executed. -/
def measureLabelRun (getRect : Except String LabelDims) (elemId : Nat)
    (s : DocState) : Except String LabelDims × DocState :=
  let s1 : DocState := { body := s.body ++ [elemId] }
  match getRect with
  | .error e => (.error e, s1)
  | .ok rect =>
    let s2 : DocState := { body := s1.body.filter (fun c => c ≠ elemId) }
    (.ok rect, s2)

/-- A fixed measurement capability assigning every label a 30 by 20 box. -/
def demoMeas : Measure := fun _ _ _ => ⟨30, 20⟩

/-- A fixed renderer capability returning the label text unchanged. -/
def demoRend : Render := fun s => s

/-- The configuration of the worked example: a 900 by 150 canvas with margins
40 and 10 and a single person at position one half. -/
def demoProps1 : SpatialDiagramProps :=
  { width := 900, height := 150, id := "d1", marginX := 40, marginY := 10,
    persons := [{ position := 1/2, label := "A" }] }

/-- C1: the 1D layout computes the axis coordinate of a labeled point as
marginStart plus position times axisLength with no clamping; for positions
in the unit interval the coordinate lies in the band from marginStart to
marginStart plus axisLength inclusive, positions outside the unit interval
land outside that band, and on a 900 by 150 canvas with marginX 40 a single
person at position one half yields an arrow tip x-coordinate of exactly 450. -/
theorem claim_C1_axis_coordinate (marginStart axisLength position : ℚ)
    (hL : 0 < axisLength) :
    axisCoord marginStart axisLength position = marginStart + position * axisLength
    ∧ (0 ≤ position → position ≤ 1 →
        marginStart ≤ axisCoord marginStart axisLength position
        ∧ axisCoord marginStart axisLength position ≤ marginStart + axisLength)
    ∧ (position < 0 → axisCoord marginStart axisLength position < marginStart)
    ∧ (1 < position →
        marginStart + axisLength < axisCoord marginStart axisLength position)
    ∧ createArrow 450 75 .up ∈ (createSpatialDiagram demoMeas demoRend demoProps1).body := by
  refine ⟨rfl, ?_, ?_, ?_, ?_⟩
  · intro h0 h1
    unfold axisCoord
    constructor
    · nlinarith
    · nlinarith
  · intro h
    unfold axisCoord
    nlinarith
  · intro h
    unfold axisCoord
    nlinarith
  · norm_num [createSpatialDiagram, horizontalElems, personStepH, axisCoord,
      createArrow, demoProps1, demoMeas, demoRend, max_def]

/-- Witness for C1: instantiated at the band membership part with
marginStart 40, axisLength 820 and position one half. -/
theorem claim_C1_axis_coordinate_wit :
    (0:ℚ) < 820
    ∧ ((40:ℚ) ≤ axisCoord 40 820 (1/2) ∧ axisCoord 40 820 (1/2) ≤ 40 + 820) :=
  ⟨by norm_num,
    (claim_C1_axis_coordinate 40 820 (1/2) (by norm_num)).2.1
      (by norm_num) (by norm_num)⟩

/-- C2 counterexample: the claim that the transient measurement element is
released on every path fails on the code.  At the concrete input where the
document body starts empty and the rectangle call throws, the call returns
with the transient element still attached: there is no try or finally
protection around the removal in the source. -/
theorem claim_C2_counterexample :
    (measureLabelRun (.error "measurement failed") 0 ⟨[]⟩).2 ≠ (⟨[]⟩ : DocState) := by
  decide

/-- C2 amended: the transient measurement element is created, measured and
released on the normal path, restoring the document body exactly; but on the
path where measurement throws, the exception propagates with the transient
element still attached to the document body, leaking it. -/
theorem claim_C2_release (getRect : Except String LabelDims) (elemId : Nat)
    (s : DocState) (hfresh : elemId ∉ s.body) :
    (∀ d, getRect = .ok d → (measureLabelRun getRect elemId s).2 = s)
    ∧ (∀ e, getRect = .error e →
        (measureLabelRun getRect elemId s).2.body = s.body ++ [elemId]) := by
  constructor
  · intro d hd
    subst hd
    cases s with
    | mk b =>
      simp only [measureLabelRun]
      congr 1
      rw [List.filter_append]
      have h1 : List.filter (fun c => decide (c ≠ elemId)) b = b := by
        rw [List.filter_eq_self]
        intro a ha
        simp only [decide_eq_true_eq]
        intro hcontra
        exact hfresh (hcontra ▸ ha)
      have h2 : List.filter (fun c => decide (c ≠ elemId)) [elemId] = [] := by
        simp
      rw [h1, h2, List.append_nil]
  · intro e he
    subst he
    rfl

/-- Witness for C2 amended: on an initially empty document body with a
successful measurement, the final document body is empty again. -/
theorem claim_C2_release_wit :
    (0 ∉ (⟨[]⟩ : DocState).body)
    ∧ (measureLabelRun (.ok ⟨30, 20⟩) 0 ⟨[]⟩).2 = (⟨[]⟩ : DocState) :=
  ⟨by decide,
    (claim_C2_release (.ok ⟨30, 20⟩) 0 ⟨[]⟩ (by decide)).1 ⟨30, 20⟩ rfl⟩

/-- C3: in both diagram variants, the arrow length of a labeled point equals
the gap between the axis line and the near edge of its label minus a fixed
clearance (5 in the 1D variant, 2 in the 2D variant); the arrow line is in
the output exactly when that length is positive and the arrowhead likewise,
so for a non-positive length each of the two is omitted, while the label is
emitted unconditionally.  In the 2D variant the length is the constant 10,
which is always positive, so the arrow is always emitted there. -/
theorem claim_C3_arrow_gap :
    (∀ (meas : Measure) (rend : Render) (fs sx L lineY my : ℚ) (pol : Policy),
      (SvgElem.line (axisCoord sx L pol.position)
          (my + (meas pol.label fs (pol.asLaTeX.getD false)).height + 5)
          (axisCoord sx L pol.position) lineY 1 false none
          ∈ policyElemsH meas rend fs sx L lineY my pol
        ↔ 0 < lineY - (my + (meas pol.label fs (pol.asLaTeX.getD false)).height) - 5)
      ∧ (createArrow (axisCoord sx L pol.position) lineY .down
          ∈ policyElemsH meas rend fs sx L lineY my pol
        ↔ 0 < lineY - (my + (meas pol.label fs (pol.asLaTeX.getD false)).height) - 5)
      ∧ SvgElem.foreignObject
          (axisCoord sx L pol.position
            - (meas pol.label fs (pol.asLaTeX.getD false)).width / 2)
          my (meas pol.label fs (pol.asLaTeX.getD false)).width
          (meas pol.label fs (pol.asLaTeX.getD false)).height
          (some pol.label) fs "center"
          (if pol.asLaTeX.getD false then rend pol.label else pol.label)
          ∈ policyElemsH meas rend fs sx L lineY my pol)
    ∧ (∀ (meas : Measure) (rend : Render) (fs sx L lineY hgt my m0 : ℚ) (per : Person),
      (SvgElem.line (axisCoord sx L per.position) lineY
          (axisCoord sx L per.position)
          (hgt - my - (meas per.label fs (per.asLaTeX.getD false)).height - 5)
          1 false none
          ∈ (personStepH meas rend fs sx L lineY hgt my ([], m0) per).1
        ↔ 0 < (hgt - my - (meas per.label fs (per.asLaTeX.getD false)).height)
              - lineY - 5)
      ∧ (createArrow (axisCoord sx L per.position) lineY .up
          ∈ (personStepH meas rend fs sx L lineY hgt my ([], m0) per).1
        ↔ 0 < (hgt - my - (meas per.label fs (per.asLaTeX.getD false)).height)
              - lineY - 5)
      ∧ SvgElem.foreignObject
          (axisCoord sx L per.position
            - (meas per.label fs (per.asLaTeX.getD false)).width / 2)
          (hgt - my - (meas per.label fs (per.asLaTeX.getD false)).height)
          (meas per.label fs (per.asLaTeX.getD false)).width
          (meas per.label fs (per.asLaTeX.getD false)).height
          (some per.label) fs "center"
          (if per.asLaTeX.getD false then rend per.label else per.label)
          ∈ (personStepH meas rend fs sx L lineY hgt my ([], m0) per).1)
    ∧ (∀ (meas : Measure) (rend : Render) (fs lineX sy L w mx : ℚ) (pol : Policy),
      (SvgElem.line lineX (axisCoord sy L pol.position)
          (w - mx - (meas pol.label fs (pol.asLaTeX.getD false)).width - 5)
          (axisCoord sy L pol.position) 1 false none
          ∈ policyElemsV meas rend fs lineX sy L w mx pol
        ↔ 0 < (w - mx - (meas pol.label fs (pol.asLaTeX.getD false)).width)
              - lineX - 5)
      ∧ (createArrow lineX (axisCoord sy L pol.position) .left
          ∈ policyElemsV meas rend fs lineX sy L w mx pol
        ↔ 0 < (w - mx - (meas pol.label fs (pol.asLaTeX.getD false)).width)
              - lineX - 5)
      ∧ SvgElem.foreignObject
          (w - mx - (meas pol.label fs (pol.asLaTeX.getD false)).width)
          (axisCoord sy L pol.position
            - (meas pol.label fs (pol.asLaTeX.getD false)).height / 2)
          (meas pol.label fs (pol.asLaTeX.getD false)).width
          (meas pol.label fs (pol.asLaTeX.getD false)).height
          (some pol.label) fs "left"
          (if pol.asLaTeX.getD false then rend pol.label else pol.label)
          ∈ policyElemsV meas rend fs lineX sy L w mx pol)
    ∧ (∀ (meas : Measure) (rend : Render) (fs lineX sy L mx m0 : ℚ) (per : Person),
      (SvgElem.line (mx + (meas per.label fs (per.asLaTeX.getD false)).width + 5)
          (axisCoord sy L per.position) lineX (axisCoord sy L per.position)
          1 false none
          ∈ (personStepV meas rend fs lineX sy L mx ([], m0) per).1
        ↔ 0 < lineX - (mx + (meas per.label fs (per.asLaTeX.getD false)).width) - 5)
      ∧ (createArrow lineX (axisCoord sy L per.position) .right
          ∈ (personStepV meas rend fs lineX sy L mx ([], m0) per).1
        ↔ 0 < lineX - (mx + (meas per.label fs (per.asLaTeX.getD false)).width) - 5)
      ∧ SvgElem.foreignObject mx
          (axisCoord sy L per.position
            - (meas per.label fs (per.asLaTeX.getD false)).height / 2)
          (meas per.label fs (per.asLaTeX.getD false)).width
          (meas per.label fs (per.asLaTeX.getD false)).height
          (some per.label) fs "right"
          (if per.asLaTeX.getD false then rend per.label else per.label)
          ∈ (personStepV meas rend fs lineX sy L mx ([], m0) per).1)
    ∧ (∀ (meas : Measure) (rend : Render) (fs leftX L centerY : ℚ) (pol : Policy),
      (SvgElem.line (axisCoord leftX L pol.position) (centerY - 10)
          (axisCoord leftX L pol.position) centerY 1 false none
          ∈ hPolicyElems2D meas rend fs leftX L centerY pol
        ↔ 0 < centerY
            - ((centerY - 10 - (meas pol.label fs (pol.asLaTeX.getD false)).height - 2)
              + (meas pol.label fs (pol.asLaTeX.getD false)).height) - 2)
      ∧ (SvgElem.triangle (axisCoord leftX L pol.position) centerY
          (axisCoord leftX L pol.position - 3) (centerY - 3)
          (axisCoord leftX L pol.position + 3) (centerY - 3)
          ∈ hPolicyElems2D meas rend fs leftX L centerY pol
        ↔ 0 < centerY
            - ((centerY - 10 - (meas pol.label fs (pol.asLaTeX.getD false)).height - 2)
              + (meas pol.label fs (pol.asLaTeX.getD false)).height) - 2)
      ∧ SvgElem.foreignObject
          (axisCoord leftX L pol.position
            - (meas pol.label fs (pol.asLaTeX.getD false)).width / 2)
          (centerY - 10 - (meas pol.label fs (pol.asLaTeX.getD false)).height - 2)
          (meas pol.label fs (pol.asLaTeX.getD false)).width
          (meas pol.label fs (pol.asLaTeX.getD false)).height
          (some pol.label) fs "center"
          (if pol.asLaTeX.getD false then rend pol.label else pol.label)
          ∈ hPolicyElems2D meas rend fs leftX L centerY pol)
    ∧ (∀ (meas : Measure) (rend : Render) (fs topY L centerX : ℚ) (pol : Policy),
      (SvgElem.line (centerX - 10) (axisCoord topY L pol.position)
          centerX (axisCoord topY L pol.position) 1 false none
          ∈ vPolicyElems2D meas rend fs topY L centerX pol
        ↔ 0 < centerX
            - ((centerX - 10 - (meas pol.label fs (pol.asLaTeX.getD false)).width - 2)
              + (meas pol.label fs (pol.asLaTeX.getD false)).width) - 2)
      ∧ (SvgElem.triangle centerX (axisCoord topY L pol.position)
          (centerX - 3) (axisCoord topY L pol.position - 3)
          (centerX - 3) (axisCoord topY L pol.position + 3)
          ∈ vPolicyElems2D meas rend fs topY L centerX pol
        ↔ 0 < centerX
            - ((centerX - 10 - (meas pol.label fs (pol.asLaTeX.getD false)).width - 2)
              + (meas pol.label fs (pol.asLaTeX.getD false)).width) - 2)
      ∧ SvgElem.foreignObject
          (centerX - 10 - (meas pol.label fs (pol.asLaTeX.getD false)).width - 2)
          (axisCoord topY L pol.position
            - (meas pol.label fs (pol.asLaTeX.getD false)).height / 2)
          (meas pol.label fs (pol.asLaTeX.getD false)).width
          (meas pol.label fs (pol.asLaTeX.getD false)).height
          (some pol.label) fs "right"
          (if pol.asLaTeX.getD false then rend pol.label else pol.label)
          ∈ vPolicyElems2D meas rend fs topY L centerX pol) := by
  refine ⟨?_, ?_, ?_, ?_, ?_, ?_⟩
  · intro meas rend fs sx L lineY my pol
    by_cases hc : (0:ℚ) < lineY
        - (my + (meas pol.label fs (pol.asLaTeX.getD false)).height + 5)
    · exact ⟨iff_of_true (by simp [policyElemsH, hc]) (by linarith),
        iff_of_true (by simp [policyElemsH, hc, createArrow]) (by linarith),
        by simp [policyElemsH, hc]⟩
    · refine ⟨iff_of_false ?_ (fun h => hc (by linarith)),
        iff_of_false ?_ (fun h => hc (by linarith)), ?_⟩
      · intro hmem
        simp [policyElemsH, hc] at hmem
      · intro hmem
        simp [policyElemsH, hc, createArrow] at hmem
      · simp [policyElemsH, hc]
  · intro meas rend fs sx L lineY hgt my m0 per
    by_cases hc : (0:ℚ) < hgt - my
        - (meas per.label fs (per.asLaTeX.getD false)).height - 5 - lineY
    · exact ⟨iff_of_true (by simp [personStepH, hc]) (by linarith),
        iff_of_true (by simp [personStepH, hc, createArrow]) (by linarith),
        by simp [personStepH, hc]⟩
    · refine ⟨iff_of_false ?_ (fun h => hc (by linarith)),
        iff_of_false ?_ (fun h => hc (by linarith)), ?_⟩
      · intro hmem
        simp [personStepH, hc] at hmem
      · intro hmem
        simp [personStepH, hc, createArrow] at hmem
      · simp [personStepH, hc]
  · intro meas rend fs lineX sy L w mx pol
    by_cases hc : (0:ℚ) < w - mx
        - (meas pol.label fs (pol.asLaTeX.getD false)).width - 5 - lineX
    · exact ⟨iff_of_true (by simp [policyElemsV, hc]) (by linarith),
        iff_of_true (by simp [policyElemsV, hc, createArrow]) (by linarith),
        by simp [policyElemsV, hc]⟩
    · refine ⟨iff_of_false ?_ (fun h => hc (by linarith)),
        iff_of_false ?_ (fun h => hc (by linarith)), ?_⟩
      · intro hmem
        simp [policyElemsV, hc] at hmem
      · intro hmem
        simp [policyElemsV, hc, createArrow] at hmem
      · simp [policyElemsV, hc]
  · intro meas rend fs lineX sy L mx m0 per
    by_cases hc : (0:ℚ) < lineX
        - (mx + (meas per.label fs (per.asLaTeX.getD false)).width + 5)
    · exact ⟨iff_of_true (by simp [personStepV, hc]) (by linarith),
        iff_of_true (by simp [personStepV, hc, createArrow]) (by linarith),
        by simp [personStepV, hc]⟩
    · refine ⟨iff_of_false ?_ (fun h => hc (by linarith)),
        iff_of_false ?_ (fun h => hc (by linarith)), ?_⟩
      · intro hmem
        simp [personStepV, hc] at hmem
      · intro hmem
        simp [personStepV, hc, createArrow] at hmem
      · simp [personStepV, hc]
  · intro meas rend fs leftX L centerY pol
    exact ⟨iff_of_true (by simp [hPolicyElems2D]) (by linarith),
      iff_of_true (by simp [hPolicyElems2D]) (by linarith),
      by simp [hPolicyElems2D]⟩
  · intro meas rend fs topY L centerX pol
    exact ⟨iff_of_true (by simp [vPolicyElems2D]) (by linarith),
      iff_of_true (by simp [vPolicyElems2D]) (by linarith),
      by simp [vPolicyElems2D]⟩

/-- Tests whether an element is a marker definition block. -/
def SvgElem.isMarkerDefs : SvgElem → Bool
  | .markerDefs _ => true
  | _ => false

/-- Tests whether an element is a line carrying a marker-end reference. -/
def SvgElem.refsMarker : SvgElem → Bool
  | .line _ _ _ _ _ _ (some _) => true
  | _ => false

/-- Arrowhead triangles are neither marker definitions nor marker references. -/
theorem createArrow_plain (x y : ℚ) (d : Dir) :
    (createArrow x y d).isMarkerDefs = false ∧ (createArrow x y d).refsMarker = false := by
  cases d <;> exact ⟨rfl, rfl⟩

/-- Elements emitted for a horizontal tic are neither marker definitions nor
marker references. -/
theorem ticElemsH_plain {meas : Measure} {rend : Render}
    {fs sx L lineY : ℚ} {u : Bool} {tic : Tic} {e : SvgElem}
    (he : e ∈ ticElemsH meas rend fs sx L lineY u tic) :
    e.isMarkerDefs = false ∧ e.refsMarker = false := by
  obtain ⟨p, lab⟩ := tic
  cases lab with
  | none =>
    simp [ticElemsH] at he
    subst he
    exact ⟨rfl, rfl⟩
  | some s =>
    by_cases hs : s = ""
    · simp [ticElemsH, hs] at he
      subst he
      exact ⟨rfl, rfl⟩
    · simp [ticElemsH, hs] at he
      rcases he with he | he <;> subst he <;> exact ⟨rfl, rfl⟩

/-- Elements emitted for a vertical tic are neither marker definitions nor
marker references. -/
theorem ticElemsV_plain {meas : Measure} {rend : Render}
    {fs lineX sy L : ℚ} {u : Bool} {tic : Tic} {e : SvgElem}
    (he : e ∈ ticElemsV meas rend fs lineX sy L u tic) :
    e.isMarkerDefs = false ∧ e.refsMarker = false := by
  obtain ⟨p, lab⟩ := tic
  cases lab with
  | none =>
    simp [ticElemsV] at he
    subst he
    exact ⟨rfl, rfl⟩
  | some s =>
    by_cases hs : s = ""
    · simp [ticElemsV, hs] at he
      subst he
      exact ⟨rfl, rfl⟩
    · simp [ticElemsV, hs] at he
      rcases he with he | he <;> subst he <;> exact ⟨rfl, rfl⟩

/-- Elements emitted for a horizontal policy are neither marker definitions
nor marker references. -/
theorem policyElemsH_plain {meas : Measure} {rend : Render}
    {fs sx L lineY my : ℚ} {pol : Policy} {e : SvgElem}
    (he : e ∈ policyElemsH meas rend fs sx L lineY my pol) :
    e.isMarkerDefs = false ∧ e.refsMarker = false := by
  unfold policyElemsH at he
  by_cases hc : (0:ℚ) < lineY
      - (my + (meas pol.label fs (pol.asLaTeX.getD false)).height + 5)
  · simp [hc, createArrow] at he
    rcases he with he | he | he <;> subst he <;> exact ⟨rfl, rfl⟩
  · simp [hc] at he
    subst he
    exact ⟨rfl, rfl⟩

/-- Elements emitted for a vertical policy are neither marker definitions nor
marker references. -/
theorem policyElemsV_plain {meas : Measure} {rend : Render}
    {fs lineX sy L w mx : ℚ} {pol : Policy} {e : SvgElem}
    (he : e ∈ policyElemsV meas rend fs lineX sy L w mx pol) :
    e.isMarkerDefs = false ∧ e.refsMarker = false := by
  unfold policyElemsV at he
  by_cases hc : (0:ℚ) < w - mx
      - (meas pol.label fs (pol.asLaTeX.getD false)).width - 5 - lineX
  · simp [hc, createArrow] at he
    rcases he with he | he | he <;> subst he <;> exact ⟨rfl, rfl⟩
  · simp [hc] at he
    subst he
    exact ⟨rfl, rfl⟩

/-- Elements accumulated by the horizontal person loop are in the initial
accumulator or are neither marker definitions nor marker references. -/
theorem personFoldH_plain (meas : Measure) (rend : Render)
    (fs sx L lineY hgt my : ℚ) (ps : List Person) :
    ∀ (acc : List SvgElem × ℚ) (e : SvgElem),
      e ∈ (ps.foldl (personStepH meas rend fs sx L lineY hgt my) acc).1 →
      e ∈ acc.1 ∨ (e.isMarkerDefs = false ∧ e.refsMarker = false) := by
  induction ps with
  | nil =>
    intro acc e he
    exact .inl he
  | cons p ps ih =>
    intro acc e he
    rw [List.foldl_cons] at he
    rcases ih _ e he with h | h
    · unfold personStepH at h
      by_cases hc : (0:ℚ) < hgt - my
          - (meas p.label fs (p.asLaTeX.getD false)).height - 5 - lineY
      · simp [hc, createArrow] at h
        rcases h with h | h | h | h
        · exact .inl h
        · exact .inr (h ▸ ⟨rfl, rfl⟩)
        · exact .inr (h ▸ ⟨rfl, rfl⟩)
        · exact .inr (h ▸ ⟨rfl, rfl⟩)
      · simp [hc] at h
        rcases h with h | h
        · exact .inl h
        · exact .inr (h ▸ ⟨rfl, rfl⟩)
    · exact .inr h

/-- Elements accumulated by the vertical person loop are in the initial
accumulator or are neither marker definitions nor marker references. -/
theorem personFoldV_plain (meas : Measure) (rend : Render)
    (fs lineX sy L mx : ℚ) (ps : List Person) :
    ∀ (acc : List SvgElem × ℚ) (e : SvgElem),
      e ∈ (ps.foldl (personStepV meas rend fs lineX sy L mx) acc).1 →
      e ∈ acc.1 ∨ (e.isMarkerDefs = false ∧ e.refsMarker = false) := by
  induction ps with
  | nil =>
    intro acc e he
    exact .inl he
  | cons p ps ih =>
    intro acc e he
    rw [List.foldl_cons] at he
    rcases ih _ e he with h | h
    · unfold personStepV at h
      by_cases hc : (0:ℚ) < lineX
          - (mx + (meas p.label fs (p.asLaTeX.getD false)).width + 5)
      · simp [hc, createArrow] at h
        rcases h with h | h | h | h
        · exact .inl h
        · exact .inr (h ▸ ⟨rfl, rfl⟩)
        · exact .inr (h ▸ ⟨rfl, rfl⟩)
        · exact .inr (h ▸ ⟨rfl, rfl⟩)
      · simp [hc] at h
        rcases h with h | h
        · exact .inl h
        · exact .inr (h ▸ ⟨rfl, rfl⟩)
    · exact .inr h

/-- Elements emitted by the horizontal space label block are never marker
definition blocks. -/
theorem spaceLabelElemsH_noDefs {meas : Measure} {rend : Render}
    {fs sx L m : ℚ} {id : String} {sl : SpaceLabel} {dir : Option Dir}
    {e : SvgElem} (he : e ∈ spaceLabelElemsH meas rend fs sx L m id sl dir) :
    e.isMarkerDefs = false := by
  unfold spaceLabelElemsH at he
  cases dir with
  | none =>
    simp at he
    subst he
    rfl
  | some d =>
    by_cases hd : d = .right
    · simp [hd] at he
      rcases he with he | he <;> subst he <;> rfl
    · simp [hd] at he
      rcases he with he | he <;> subst he <;> rfl

/-- Elements emitted by the vertical space label block are never marker
definition blocks. -/
theorem spaceLabelElemsV_noDefs {meas : Measure} {rend : Render}
    {fs sy L m : ℚ} {id : String} {sl : SpaceLabel} {dir : Option Dir}
    {e : SvgElem} (he : e ∈ spaceLabelElemsV meas rend fs sy L m id sl dir) :
    e.isMarkerDefs = false := by
  unfold spaceLabelElemsV at he
  cases dir with
  | none =>
    simp at he
    subst he
    rfl
  | some d =>
    by_cases hd : d = .down
    · simp [hd] at he
      rcases he with he | he <;> subst he <;> rfl
    · by_cases hu : d = .up
      · simp [hd, hu] at he
        rcases he with he | he <;> subst he <;> rfl
      · simp [hd, hu] at he
        subst he
        rfl

/-- When the requested direction is left or right, the vertical space label
block emits no marker-referencing line at all. -/
theorem spaceLabelElemsV_noRef {meas : Measure} {rend : Render}
    {fs sy L m : ℚ} {id : String} {sl : SpaceLabel} {d : Dir}
    (hd : d = .left ∨ d = .right) {e : SvgElem}
    (he : e ∈ spaceLabelElemsV meas rend fs sy L m id sl (some d)) :
    e.refsMarker = false := by
  unfold spaceLabelElemsV at he
  rcases hd with hd | hd <;> subst hd <;> simp at he <;> subst he <;> rfl

/-- The configuration of the C4 counterexample: a vertical diagram whose
space label requests a left directional arrow. -/
def demoProps4 : SpatialDiagramProps :=
  { width := 900, height := 150, id := "d4", marginX := 40, marginY := 10,
    spaceLabel := some { label := "S" }, LabelDirection := some .left,
    orientation := .vertical }

/-- C4 counterexample: the claim that whenever spaceLabel and LabelDirection
are both present the output contains a line referencing the marker fails on
the code.  In vertical orientation with direction left, the marker
definition is emitted but no element of the output references it. -/
theorem claim_C4_counterexample :
    SvgElem.markerDefs "arrowhead-d4"
      ∈ (createSpatialDiagram demoMeas demoRend demoProps4).body
    ∧ ∀ e ∈ (createSpatialDiagram demoMeas demoRend demoProps4).body,
        e.refsMarker = false := by
  have hbody : (createSpatialDiagram demoMeas demoRend demoProps4).body =
      [SvgElem.line 450 10 450 140 2 false none,
       SvgElem.foreignObject 460 65 30 20 (some "S") 16 "left" "S",
       SvgElem.markerDefs "arrowhead-d4"] := by
    norm_num [createSpatialDiagram, verticalElems, spaceLabelElemsV,
      demoProps4, demoMeas, demoRend]
    decide
  rw [hbody]
  refine ⟨by simp, ?_⟩
  intro e he
  simp at he
  rcases he with he | he | he <;> subst he <;> rfl

/-- C4 amended: a marker definition keyed by the diagram id appears in the
output exactly when spaceLabel and LabelDirection are both present; when both
are present, a line referencing that marker is emitted in horizontal
orientation (pointing right when the direction is right and left for every
other direction) and in vertical orientation only for the directions down
and up (pointing accordingly); vertical orientation with direction left or
right emits no marker-referencing line at all. -/
theorem claim_C4_marker (meas : Measure) (rend : Render)
    (props : SpatialDiagramProps) :
    (SvgElem.markerDefs ("arrowhead-" ++ props.id)
        ∈ (createSpatialDiagram meas rend props).body
      ↔ props.spaceLabel.isSome = true ∧ props.LabelDirection.isSome = true)
    ∧ (props.orientation = .horizontal → ∀ sl d, props.spaceLabel = some sl →
        props.LabelDirection = some d →
        ∃ x1 x2 y, SvgElem.line x1 y x2 y 1 false (some ("arrowhead-" ++ props.id))
            ∈ (createSpatialDiagram meas rend props).body
          ∧ (d = .right → x1 < x2) ∧ (d ≠ .right → x2 < x1))
    ∧ (props.orientation = .vertical → ∀ sl, props.spaceLabel = some sl →
        (props.LabelDirection = some .down →
          ∃ x y1 y2, SvgElem.line x y1 x y2 1 false (some ("arrowhead-" ++ props.id))
              ∈ (createSpatialDiagram meas rend props).body ∧ y1 < y2)
        ∧ (props.LabelDirection = some .up →
          ∃ x y1 y2, SvgElem.line x y1 x y2 1 false (some ("arrowhead-" ++ props.id))
              ∈ (createSpatialDiagram meas rend props).body ∧ y2 < y1)
        ∧ ((props.LabelDirection = some .left ∨ props.LabelDirection = some .right) →
          ∀ e ∈ (createSpatialDiagram meas rend props).body, e.refsMarker = false)) := by
  cases ho : props.orientation with
  | horizontal =>
    refine ⟨⟨?_, ?_⟩, ?_, ?_⟩
    · intro hm
      simp only [createSpatialDiagram, ho, horizontalElems, List.mem_append] at hm
      rcases hm with ((((h1 | h2) | h3) | h4) | h5) | h6
      · simp at h1
      · rcases hsc : props.scale with - | sc
        · rw [hsc] at h2
          simp at h2
        · rw [hsc] at h2
          simp only [List.mem_flatMap] at h2
          obtain ⟨t, -, hmem⟩ := h2
          have := (ticElemsH_plain hmem).1
          simp [SvgElem.isMarkerDefs] at this
      · simp only [List.mem_flatMap] at h3
        obtain ⟨q, -, hmem⟩ := h3
        have := (policyElemsH_plain hmem).1
        simp [SvgElem.isMarkerDefs] at this
      · rcases personFoldH_plain meas rend props.fontSize props.marginX
            (props.width - props.marginX - props.marginX) (props.height / 2)
            props.height props.marginY props.persons ([], props.height / 2) _ h4
          with h | h
        · simp at h
        · simp [SvgElem.isMarkerDefs] at h
      · rcases hsl : props.spaceLabel with - | sl
        · rw [hsl] at h5
          simp at h5
        · rw [hsl] at h5
          have := spaceLabelElemsH_noDefs h5
          simp [SvgElem.isMarkerDefs] at this
      · by_cases hg : (props.spaceLabel.isSome && props.LabelDirection.isSome) = true
        · simpa [Bool.and_eq_true] using hg
        · simp [hg] at h6
    · rintro ⟨hs, hd⟩
      simp [createSpatialDiagram, ho, horizontalElems, hs, hd]
    · intro _ sl d hsl hd
      by_cases hdr : d = .right
      · subst hdr
        refine ⟨props.marginX + (props.width - props.marginX - props.marginX) / 2 - 40 / 2,
          props.marginX + (props.width - props.marginX - props.marginX) / 2 + 40 / 2,
          (props.persons.foldl (personStepH meas rend props.fontSize props.marginX
              (props.width - props.marginX - props.marginX) (props.height / 2)
              props.height props.marginY) ([], props.height / 2)).2 + 10
            + (meas sl.label props.fontSize (sl.asLaTeX.getD false)).height + 10,
          ?_, fun _ => by linarith, fun h => absurd rfl h⟩
        simp [createSpatialDiagram, ho, horizontalElems, hsl, hd, spaceLabelElemsH]
      · refine ⟨props.marginX + (props.width - props.marginX - props.marginX) / 2 + 40 / 2,
          props.marginX + (props.width - props.marginX - props.marginX) / 2 - 40 / 2,
          (props.persons.foldl (personStepH meas rend props.fontSize props.marginX
              (props.width - props.marginX - props.marginX) (props.height / 2)
              props.height props.marginY) ([], props.height / 2)).2 + 10
            + (meas sl.label props.fontSize (sl.asLaTeX.getD false)).height + 10,
          ?_, fun h => absurd h hdr, fun _ => by linarith⟩
        simp [createSpatialDiagram, ho, horizontalElems, hsl, hd, spaceLabelElemsH, hdr]
    · intro h
      simp at h
  | vertical =>
    refine ⟨⟨?_, ?_⟩, ?_, ?_⟩
    · intro hm
      simp only [createSpatialDiagram, ho, verticalElems, List.mem_append] at hm
      rcases hm with ((((h1 | h2) | h3) | h4) | h5) | h6
      · simp at h1
      · rcases hsc : props.scale with - | sc
        · rw [hsc] at h2
          simp at h2
        · rw [hsc] at h2
          simp only [List.mem_flatMap] at h2
          obtain ⟨t, -, hmem⟩ := h2
          have := (ticElemsV_plain hmem).1
          simp [SvgElem.isMarkerDefs] at this
      · simp only [List.mem_flatMap] at h3
        obtain ⟨q, -, hmem⟩ := h3
        have := (policyElemsV_plain hmem).1
        simp [SvgElem.isMarkerDefs] at this
      · rcases personFoldV_plain meas rend props.fontSize (props.width / 2)
            props.marginY (props.height - props.marginY - props.marginY)
            props.marginX props.persons ([], props.width / 2) _ h4
          with h | h
        · simp at h
        · simp [SvgElem.isMarkerDefs] at h
      · rcases hsl : props.spaceLabel with - | sl
        · rw [hsl] at h5
          simp at h5
        · rw [hsl] at h5
          have := spaceLabelElemsV_noDefs h5
          simp [SvgElem.isMarkerDefs] at this
      · by_cases hg : (props.spaceLabel.isSome && props.LabelDirection.isSome) = true
        · simpa [Bool.and_eq_true] using hg
        · simp [hg] at h6
    · rintro ⟨hs, hd⟩
      simp [createSpatialDiagram, ho, verticalElems, hs, hd]
    · intro h
      simp at h
    · intro _ sl hsl
      refine ⟨?_, ?_, ?_⟩
      · intro hd
        refine ⟨(props.persons.foldl (personStepV meas rend props.fontSize
              (props.width / 2) props.marginY
              (props.height - props.marginY - props.marginY) props.marginX)
              ([], props.width / 2)).2 + 10
            + (meas sl.label props.fontSize (sl.asLaTeX.getD false)).width + 10,
          props.marginY + (props.height - props.marginY - props.marginY) / 2 - 40 / 2,
          props.marginY + (props.height - props.marginY - props.marginY) / 2 + 40 / 2,
          ?_, by linarith⟩
        simp [createSpatialDiagram, ho, verticalElems, hsl, hd, spaceLabelElemsV]
      · intro hd
        refine ⟨(props.persons.foldl (personStepV meas rend props.fontSize
              (props.width / 2) props.marginY
              (props.height - props.marginY - props.marginY) props.marginX)
              ([], props.width / 2)).2 + 10
            + (meas sl.label props.fontSize (sl.asLaTeX.getD false)).width + 10,
          props.marginY + (props.height - props.marginY - props.marginY) / 2 + 40 / 2,
          props.marginY + (props.height - props.marginY - props.marginY) / 2 - 40 / 2,
          ?_, by linarith⟩
        simp [createSpatialDiagram, ho, verticalElems, hsl, hd, spaceLabelElemsV]
      · intro hdlr e he
        simp only [createSpatialDiagram, ho, verticalElems, List.mem_append] at he
        rcases he with ((((h1 | h2) | h3) | h4) | h5) | h6
        · simp at h1
          subst h1
          rfl
        · rcases hsc : props.scale with - | sc
          · rw [hsc] at h2
            simp at h2
          · rw [hsc] at h2
            simp only [List.mem_flatMap] at h2
            obtain ⟨t, -, hmem⟩ := h2
            exact (ticElemsV_plain hmem).2
        · simp only [List.mem_flatMap] at h3
          obtain ⟨q, -, hmem⟩ := h3
          exact (policyElemsV_plain hmem).2
        · rcases personFoldV_plain meas rend props.fontSize (props.width / 2)
              props.marginY (props.height - props.marginY - props.marginY)
              props.marginX props.persons ([], props.width / 2) _ h4
            with h | h
          · simp at h
          · exact h.2
        · rw [hsl] at h5
          rcases hdlr with hdl | hdl <;> rw [hdl] at h5
          · exact spaceLabelElemsV_noRef (Or.inl rfl) h5
          · exact spaceLabelElemsV_noRef (Or.inr rfl) h5
        · by_cases hg : (props.spaceLabel.isSome && props.LabelDirection.isSome) = true
          · simp [hg] at h6
            subst h6
            rfl
          · simp [hg] at h6

/-- Witness for C4 amended: at the worked example input with a space label
and direction right in horizontal orientation, the marker definition is in
the output. -/
theorem claim_C4_marker_wit :
    SvgElem.markerDefs "arrowhead-d4w"
      ∈ (createSpatialDiagram demoMeas demoRend
          { width := 900, height := 150, id := "d4w", marginX := 40,
            marginY := 10, spaceLabel := some { label := "S" },
            LabelDirection := some .right }).body :=
  (claim_C4_marker demoMeas demoRend
    { width := 900, height := 150, id := "d4w", marginX := 40, marginY := 10,
      spaceLabel := some { label := "S" },
      LabelDirection := some .right }).1.mpr ⟨rfl, rfl⟩

/-- The running maximum carried by the horizontal person loop never
decreases. -/
theorem personFoldH_max_ge (meas : Measure) (rend : Render)
    (fs sx L lineY hgt my : ℚ) (ps : List Person) :
    ∀ acc : List SvgElem × ℚ,
      acc.2 ≤ (ps.foldl (personStepH meas rend fs sx L lineY hgt my) acc).2 := by
  induction ps with
  | nil =>
    intro acc
    exact le_refl _
  | cons p ps ih =>
    intro acc
    rw [List.foldl_cons]
    refine le_trans ?_ (ih _)
    simp only [personStepH]
    exact le_max_left _ _

/-- The running maximum of the horizontal person loop bounds the bottom edge
of every person label processed so far, which is always the canvas height
minus the bottom margin. -/
theorem personFoldH_bottom_le (meas : Measure) (rend : Render)
    (fs sx L lineY hgt my : ℚ) (ps : List Person) :
    ∀ acc : List SvgElem × ℚ, ∀ p ∈ ps,
      hgt - my ≤ (ps.foldl (personStepH meas rend fs sx L lineY hgt my) acc).2 := by
  induction ps with
  | nil =>
    intro acc p hp
    cases hp
  | cons q ps ih =>
    intro acc p hp
    rw [List.foldl_cons]
    rcases List.mem_cons.mp hp with h | h
    · refine le_trans ?_ (personFoldH_max_ge meas rend fs sx L lineY hgt my ps _)
      simp only [personStepH]
      have hb := le_max_right acc.2
        ((hgt - my - (meas q.label fs (q.asLaTeX.getD false)).height)
          + (meas q.label fs (q.asLaTeX.getD false)).height)
      linarith
    · exact ih _ p h

/-- The configuration of the C5 counterexample: a horizontal diagram with a
captioned scale tic and a space label but no persons. -/
def demoProps5 : SpatialDiagramProps :=
  { width := 900, height := 150, id := "d5", marginX := 40, marginY := 10,
    spaceLabel := some { label := "S" },
    scale := some { tics := [{ pos := 1/2, label := some "0" }] } }

/-- C5 counterexample: the claim that the caption near edge lies strictly
beyond the far edge of every previously emitted element fails on the code.
At this concrete input the caption top edge is at 85 while the previously
emitted tic label, a foreignObject of height 20 placed at 81, reaches down
to 101: the tic label is not part of the running maximum. -/
theorem claim_C5_counterexample :
    (createSpatialDiagram demoMeas demoRend demoProps5).body =
      [SvgElem.line 40 75 860 75 2 false none,
       SvgElem.line 450 75 450 79 2 false none,
       SvgElem.foreignObject 435 81 30 20 none 16 "center" "0",
       SvgElem.foreignObject 435 85 30 20 (some "S") 16 "center" "S"]
    ∧ (85:ℚ) < 81 + 20 := by
  constructor
  · norm_num [createSpatialDiagram, horizontalElems, ticElemsH,
      spaceLabelElemsH, axisCoord, demoProps5, demoMeas, demoRend]
    decide
  · norm_num

/-- C5 amended: in the horizontal 1D layout the caption is placed 10 below
the running maximum over the axis height and the bottom edges of the person
labels, so its top edge lies strictly below the axis line and strictly below
the bottom edge of every person label; elements outside that running maximum,
such as tic labels, are not taken into account. -/
theorem claim_C5_caption (meas : Measure) (rend : Render)
    (props : SpatialDiagramProps) (sl : SpaceLabel)
    (hsl : props.spaceLabel = some sl) (ho : props.orientation = .horizontal) :
    SvgElem.foreignObject
        (props.marginX + (props.width - props.marginX - props.marginX) / 2
          - (meas sl.label props.fontSize (sl.asLaTeX.getD false)).width / 2)
        ((props.persons.foldl (personStepH meas rend props.fontSize props.marginX
            (props.width - props.marginX - props.marginX) (props.height / 2)
            props.height props.marginY) ([], props.height / 2)).2 + 10)
        (meas sl.label props.fontSize (sl.asLaTeX.getD false)).width
        (meas sl.label props.fontSize (sl.asLaTeX.getD false)).height
        (some sl.label) props.fontSize "center"
        (if sl.asLaTeX.getD false then rend sl.label else sl.label)
      ∈ (createSpatialDiagram meas rend props).body
    ∧ props.height / 2
        < (props.persons.foldl (personStepH meas rend props.fontSize props.marginX
            (props.width - props.marginX - props.marginX) (props.height / 2)
            props.height props.marginY) ([], props.height / 2)).2 + 10
    ∧ ∀ p ∈ props.persons, props.height - props.marginY
        < (props.persons.foldl (personStepH meas rend props.fontSize props.marginX
            (props.width - props.marginX - props.marginX) (props.height / 2)
            props.height props.marginY) ([], props.height / 2)).2 + 10 := by
  refine ⟨?_, ?_, ?_⟩
  · simp [createSpatialDiagram, ho, horizontalElems, hsl, spaceLabelElemsH]
  · have := personFoldH_max_ge meas rend props.fontSize props.marginX
      (props.width - props.marginX - props.marginX) (props.height / 2)
      props.height props.marginY props.persons ([], props.height / 2)
    simp only at this
    linarith
  · intro p hp
    have := personFoldH_bottom_le meas rend props.fontSize props.marginX
      (props.width - props.marginX - props.marginX) (props.height / 2)
      props.height props.marginY props.persons ([], props.height / 2) p hp
    linarith

/-- Witness for C5 amended: at the counterexample configuration the caption
top edge lies strictly below the axis line. -/
theorem claim_C5_caption_wit :
    demoProps5.height / 2
      < (demoProps5.persons.foldl (personStepH demoMeas demoRend
          demoProps5.fontSize demoProps5.marginX
          (demoProps5.width - demoProps5.marginX - demoProps5.marginX)
          (demoProps5.height / 2) demoProps5.height demoProps5.marginY)
          ([], demoProps5.height / 2)).2 + 10 :=
  (claim_C5_caption demoMeas demoRend demoProps5 { label := "S" } rfl rfl).2.1

/-- C6: the 1D layout function is deterministic; with extensionally equal
measurement and rendering capabilities, two calls on the same configuration
produce the same document, coordinates and structure included. -/
theorem claim_C6_deterministic (m1 m2 : Measure) (r1 r2 : Render)
    (props : SpatialDiagramProps)
    (hm : ∀ l f a, m1 l f a = m2 l f a) (hr : ∀ l, r1 l = r2 l) :
    createSpatialDiagram m1 r1 props = createSpatialDiagram m2 r2 props := by
  have hm2 : m1 = m2 := funext fun l => funext fun f => funext fun a => hm l f a
  have hr2 : r1 = r2 := funext fun l => hr l
  rw [hm2, hr2]

/-- Witness for C6: two identical calls on the worked example agree. -/
theorem claim_C6_deterministic_wit :
    createSpatialDiagram demoMeas demoRend demoProps1
      = createSpatialDiagram demoMeas demoRend demoProps1 :=
  claim_C6_deterministic demoMeas demoMeas demoRend demoRend demoProps1
    (fun _ _ _ => rfl) (fun _ => rfl)

/-- C7: a 1D diagram with no persons, no policies, no scale and no space
label emits exactly the axis line and nothing else, in both orientations of
the newer variant and in the older variant. -/
theorem claim_C7_empty_diagram (w h mx my fs : ℚ) (i : String)
    (ld : Option Dir) (meas : Measure) (rend : Render) :
    (createSpatialDiagram meas rend
        { width := w, height := h, id := i, marginX := mx, marginY := my,
          fontSize := fs, LabelDirection := ld }).body
      = [SvgElem.line mx (h / 2) (w - mx) (h / 2) 2 false none]
    ∧ (createSpatialDiagram meas rend
        { width := w, height := h, id := i, marginX := mx, marginY := my,
          fontSize := fs, LabelDirection := ld,
          orientation := .vertical }).body
      = [SvgElem.line (w / 2) my (w / 2) (h - my) 2 false none]
    ∧ (createSpatialDiagramV1 meas rend
        { width := w, height := h, id := i, marginX := mx, marginY := my,
          fontSize := fs, LabelDirection := ld }).body
      = [SvgElem.line mx (h / 2) (w - mx) (h / 2) 2 false none] :=
  ⟨rfl, rfl, rfl⟩

/-- C8: in the 2D variant the two axes cross at the canvas center for every
width, height and margins: the horizontal axis sits at half the height and
the vertical axis at half the width, the margins cancelling in the midpoint
computation. -/
theorem claim_C8_axes_center (meas : Measure) (rend : Render)
    (p : SpatialDiagram2DProps) :
    SvgElem.line p.marginX (p.height / 2) (p.width - p.marginX) (p.height / 2)
        2 false none ∈ (createSpatialDiagram2D meas rend p).body
    ∧ SvgElem.line (p.width / 2) p.marginY (p.width / 2) (p.height - p.marginY)
        2 false none ∈ (createSpatialDiagram2D meas rend p).body := by
  have hy : (p.marginY + (p.height - p.marginY)) / 2 = p.height / 2 := by ring
  have hx : (p.marginX + (p.width - p.marginX)) / 2 = p.width / 2 := by ring
  constructor
  · rw [← hy]
    simp [createSpatialDiagram2D]
  · rw [← hx]
    simp [createSpatialDiagram2D]

/-- A degenerate 1D configuration whose horizontal margin exceeds half the
width. -/
def demoProps9 : SpatialDiagramProps :=
  { width := 100, height := 50, id := "d9", marginX := 80, marginY := 5 }

/-- A degenerate 2D configuration whose margins exceed half of both canvas
dimensions. -/
def demoProps9b : SpatialDiagram2DProps :=
  { width := 100, height := 50, id := "d9b", marginX := 80, marginY := 40 }

/-- C9: the layout functions are total and perform no validation: every
input yields a document carrying the requested id, width and height, and at
a concrete invalid geometry where the margins exceed half the canvas the
axis lines are simply emitted with inverted, negative-length coordinate
spans. -/
theorem claim_C9_total_degenerate (meas : Measure) (rend : Render)
    (props : SpatialDiagramProps) (props2 : SpatialDiagram2DProps) :
    ((createSpatialDiagram meas rend props).id = props.id
      ∧ (createSpatialDiagram meas rend props).width = props.width
      ∧ (createSpatialDiagram meas rend props).height = props.height)
    ∧ ((createSpatialDiagram2D meas rend props2).id = props2.id
      ∧ (createSpatialDiagram2D meas rend props2).width = props2.width
      ∧ (createSpatialDiagram2D meas rend props2).height = props2.height)
    ∧ (createSpatialDiagram meas rend demoProps9).body
        = [SvgElem.line 80 25 20 25 2 false none]
    ∧ (20:ℚ) - 80 < 0
    ∧ (createSpatialDiagram2D meas rend demoProps9b).body
        = [SvgElem.line 80 25 20 25 2 false none,
           SvgElem.line 50 40 50 10 2 false none]
    ∧ (10:ℚ) - 40 < 0 := by
  refine ⟨⟨rfl, rfl, rfl⟩, ⟨rfl, rfl, rfl⟩, ?_, by norm_num, ?_, by norm_num⟩
  · norm_num [createSpatialDiagram, horizontalElems, demoProps9]
  · norm_num [createSpatialDiagram2D, demoProps9b]

/-- Tests whether an element is a foreignObject whose id attribute equals the
given string. -/
def SvgElem.idIs : SvgElem → String → Bool
  | .foreignObject _ _ _ _ (some t) _ _ _, s => t == s
  | _, _ => false

/-- A configuration with two persons sharing the label A. -/
def demoProps10 : SpatialDiagramProps :=
  { width := 900, height := 150, id := "dup", marginX := 40, marginY := 10,
    persons := [{ position := 1/4, label := "A" },
                { position := 3/4, label := "A" }] }

/-- C10: for persons, policies and the space label, the emitted foreignObject
carries an id attribute equal to the entity label verbatim, not namespaced by
the diagram id; consequently two entities with the same label yield duplicate
element ids, as witnessed by a concrete diagram with two persons labelled A
whose output contains two elements with id A. -/
theorem claim_C10_label_ids :
    (∀ (meas : Measure) (rend : Render) (fs sx L lineY hgt my m0 : ℚ)
      (per : Person),
      SvgElem.foreignObject
          (axisCoord sx L per.position
            - (meas per.label fs (per.asLaTeX.getD false)).width / 2)
          (hgt - my - (meas per.label fs (per.asLaTeX.getD false)).height)
          (meas per.label fs (per.asLaTeX.getD false)).width
          (meas per.label fs (per.asLaTeX.getD false)).height
          (some per.label) fs "center"
          (if per.asLaTeX.getD false then rend per.label else per.label)
        ∈ (personStepH meas rend fs sx L lineY hgt my ([], m0) per).1)
    ∧ (∀ (meas : Measure) (rend : Render) (fs sx L lineY my : ℚ) (pol : Policy),
      SvgElem.foreignObject
          (axisCoord sx L pol.position
            - (meas pol.label fs (pol.asLaTeX.getD false)).width / 2)
          my (meas pol.label fs (pol.asLaTeX.getD false)).width
          (meas pol.label fs (pol.asLaTeX.getD false)).height
          (some pol.label) fs "center"
          (if pol.asLaTeX.getD false then rend pol.label else pol.label)
        ∈ policyElemsH meas rend fs sx L lineY my pol)
    ∧ (∀ (meas : Measure) (rend : Render) (fs sx L m : ℚ) (i : String)
      (sl : SpaceLabel) (dir : Option Dir),
      SvgElem.foreignObject
          (sx + L / 2 - (meas sl.label fs (sl.asLaTeX.getD false)).width / 2)
          (m + 10) (meas sl.label fs (sl.asLaTeX.getD false)).width
          (meas sl.label fs (sl.asLaTeX.getD false)).height
          (some sl.label) fs "center"
          (if sl.asLaTeX.getD false then rend sl.label else sl.label)
        ∈ spaceLabelElemsH meas rend fs sx L m i sl dir)
    ∧ (∀ (meas : Measure) (rend : Render) (fs lx Lh ty Lv cx cy : ℚ)
      (per : Person2D),
      SvgElem.foreignObject (axisCoord lx Lh per.x + 8)
          (axisCoord ty Lv per.y - 8
            - (meas per.label fs (per.asLaTeX.getD false)).height)
          (meas per.label fs (per.asLaTeX.getD false)).width
          (meas per.label fs (per.asLaTeX.getD false)).height
          (some per.label) fs "left"
          (if per.asLaTeX.getD false then rend per.label else per.label)
        ∈ personElems2D meas rend fs lx Lh ty Lv cx cy per)
    ∧ (createSpatialDiagram demoMeas demoRend demoProps10).body.countP
        (fun e => e.idIs "A") = 2 := by
  refine ⟨?_, ?_, ?_, ?_, ?_⟩
  · intro meas rend fs sx L lineY hgt my m0 per
    simp [personStepH]
  · intro meas rend fs sx L lineY my pol
    simp [policyElemsH]
  · intro meas rend fs sx L m i sl dir
    simp [spaceLabelElemsH]
  · intro meas rend fs lx Lh ty Lv cx cy per
    simp [personElems2D]
  · have hbody : (createSpatialDiagram demoMeas demoRend demoProps10).body =
        [SvgElem.line 40 75 860 75 2 false none,
         SvgElem.line 245 75 245 115 1 false none,
         SvgElem.triangle 245 75 239 81 251 81,
         SvgElem.foreignObject 230 120 30 20 (some "A") 16 "center" "A",
         SvgElem.line 655 75 655 115 1 false none,
         SvgElem.triangle 655 75 649 81 661 81,
         SvgElem.foreignObject 640 120 30 20 (some "A") 16 "center" "A"] := by
      norm_num [createSpatialDiagram, horizontalElems, personStepH, axisCoord,
        createArrow, demoProps10, demoMeas, demoRend, max_def]
    rw [hbody]
    decide

end SpatialSvg
